import Mathlib

/-!
Verification of the tick-ingestion and delivery-dedup engine of
`dhan_websocket_bot.py` (plus its companion scripts `find_id.py` and
`test_dhan_ltp.py`).

The Python source is shallowly embedded below.  JSON values (the results of
`json.loads` and of `requests.Response.json()`) are modelled by the inductive
type `JVal`; Python dictionaries appearing in the program (the static symbol
tables, the poller's `sym_map`, the client's `last_ltps` store, segment
grouping in `build_security_payload`) are modelled as insertion-ordered
association lists, matching CPython dict semantics for the operations the
program uses (`get`, `in`, item assignment, `setdefault(..,[]).append`,
`items()` iteration).  Numbers are modelled as rationals: Python `int` and
`float` compare numerically across the two types, and every comparison the
program performs on prices is an (in)equality, which `ℚ` reproduces exactly.
External effects are made explicit: `json.loads` is passed in as a function
`String → Option JVal` (`none` models a raised `JSONDecodeError`),
`bytes.decode("utf-8")` outcomes and HTTP attempt outcomes are inputs, and
`send_telegram` calls are collected into an output list.
-/

/-- Model of a Python/JSON value as produced by `json.loads`.  Object fields
are kept in insertion order; values parsed from JSON never contain duplicate
keys (CPython keeps the last occurrence).  `jnull` also stands for the Python
`None` that `dict.get` returns for a missing key. -/
inductive JVal where
  | jnull : JVal
  | jbool (b : Bool) : JVal
  | jnum (q : ℚ) : JVal
  | jstr (s : String) : JVal
  | jarr (elems : List JVal) : JVal
  | jobj (fields : List (String × JVal)) : JVal
deriving Repr

/-- Python truthiness (`bool(x)`) on modelled values: `None`/`False`/`0`/
empty string/empty list/empty dict are falsy, everything else truthy. -/
def truthy : JVal → Bool
  | .jnull => false
  | .jbool b => b
  | .jnum q => q ≠ 0
  | .jstr s => s ≠ ""
  | .jarr l => !l.isEmpty
  | .jobj l => !l.isEmpty

/-- Python `a or b` on modelled values: `a` if truthy, else `b`. -/
def pyOr (a b : JVal) : JVal := if truthy a then a else b

/-- Python `x is None` on modelled values. -/
def isNull : JVal → Bool
  | .jnull => true
  | _ => false

/-- `fields.get(k)` on a modelled dict: first (unique) binding of `k`. -/
def objGet : List (String × JVal) → String → Option JVal
  | [], _ => none
  | (k', v) :: rest, k => if k' = k then some v else objGet rest k

/-- `fields.get(k)` returning the Python `None` default as `jnull`. -/
def objGetJ (fields : List (String × JVal)) (k : String) : JVal :=
  (objGet fields k).getD .jnull

mutual
/-- Structural size of a modelled value, counting one per constructor; used
only to provide sufficient fuel to `pyEq`. -/
def jsize : JVal → Nat
  | .jnull => 1
  | .jbool _ => 1
  | .jnum _ => 1
  | .jstr _ => 1
  | .jarr l => 1 + jsizeArr l
  | .jobj l => 1 + jsizeObj l
def jsizeArr : List JVal → Nat
  | [] => 0
  | x :: xs => jsize x + jsizeArr xs
def jsizeObj : List (String × JVal) → Nat
  | [] => 0
  | (_, v) :: xs => jsize v + jsizeObj xs
end

/-- Python `==` on modelled values, fuelled so the recursion through nested
lists/objects is structural.  Booleans compare numerically with numbers
(`True == 1` in Python), numbers compare as rationals (`2 == 2.0`), dicts
compare as unordered key→value mappings.  The wrapper `pyEq` supplies fuel
strictly larger than the combined structural size (one unit of fuel is spent
per `JVal` level descended, and `jsize` bounds the depth), so the
fuel-exhausted branch is unreachable. -/
def pyEqF : Nat → JVal → JVal → Bool
  | 0, _, _ => false
  | f + 1, x, y =>
    match x, y with
    | .jnull, .jnull => true
    | .jbool a, .jbool b => a == b
    | .jbool a, .jnum b => (if a then (1 : ℚ) else 0) == b
    | .jnum a, .jbool b => a == (if b then (1 : ℚ) else 0)
    | .jnum a, .jnum b => a == b
    | .jstr a, .jstr b => a == b
    | .jarr a, .jarr b =>
        a.length == b.length && (a.zip b).all (fun p => pyEqF f p.1 p.2)
    | .jobj a, .jobj b =>
        a.length == b.length &&
          a.all (fun kv =>
            match objGet b kv.1 with
            | some w => pyEqF f kv.2 w
            | none => false)
    | _, _ => false

/-- Python `==` on modelled values (see `pyEqF`). -/
def pyEq (a b : JVal) : Bool := pyEqF (Nat.succ (jsize a + jsize b)) a b

/-- Python `str(x)` for the values the program formats.  Exact for `None`,
booleans, strings and integer-valued numbers (every number the static tables
and the claims exercise); non-integer numbers and containers, which the
program never formats in the verified claims, are given a fixed rendering. -/
def pyStr : JVal → String
  | .jnull => "None"
  | .jbool b => if b then "True" else "False"
  | .jnum q => if q.den = 1 then toString q.num else toString q
  | .jstr s => s
  | .jarr _ => "<list>"
  | .jobj _ => "<dict>"

/-- The `last_ltps` dict of `DhanWebsocketClient` (and any other
string-keyed Python dict holding prices): insertion-ordered assoc list. -/
abbrev Store := List (String × JVal)

/-- `store.get(key)`. -/
def storeGet : Store → String → Option JVal
  | [], _ => none
  | (k', v) :: rest, k => if k' = k then some v else storeGet rest k

/-- `store[key] = v`: update in place if present (CPython keeps the original
insertion position), else append. -/
def storeSet : Store → String → JVal → Store
  | [], k, v => [(k, v)]
  | (k', v') :: rest, k, v =>
    if k' = k then (k', v) :: rest else (k', v') :: storeSet rest k v

/-- `dict.get(k)` on a string-valued table such as the symbol tables. -/
def tableGet : List (String × String) → String → Option String
  | [], _ => none
  | (k', v) :: rest, k => if k' = k then some v else tableGet rest k

/-- First key whose value equals `sid` (`for k, v in d.items(): if str(v) ==
sid: ...` — the table values are the plain digit strings stored below, so
`str(v) = v`). -/
def findKeyByVal : List (String × String) → String → Option String
  | [], _ => none
  | (k, v) :: rest, sid => if v = sid then some k else findKeyByVal rest sid

/-- `NIFTY50_STOCKS` (source lines 25-29). -/
def NIFTY50_STOCKS : List (String × String) :=
  [("TATAMOTORS", "3456"), ("RELIANCE", "2885"), ("TCS", "11536")]

/-- `INDICES_NSE` (source lines 17-21). -/
def INDICES_NSE : List (String × String) :=
  [("NIFTY 50", "13"), ("NIFTY BANK", "25"), ("BANKNIFTY", "25")]

/-- `INDICES_BSE` (source lines 22-24). -/
def INDICES_BSE : List (String × String) :=
  [("SENSEX", "51")]

/-- Python `str.upper()` restricted to ASCII (every symbol the program
handles is ASCII): uppercase the letters `a`-`z`. -/
def pyCharUpper (c : Char) : Char :=
  if 'a' ≤ c ∧ c ≤ 'z' then Char.ofNat (c.toNat - 32) else c

/-- Python `s.upper()` (ASCII fragment). -/
def pyUpper (s : String) : String := String.mk (s.data.map pyCharUpper)

/-- ASCII whitespace stripped by Python `str.strip()`. -/
def isPySpace (c : Char) : Bool :=
  c = ' ' || c = '\t' || c = '\n' || c = '\r' || c = '\x0b' || c = '\x0c'

/-- Python `s.strip()` (ASCII-whitespace fragment). -/
def pyStrip (s : String) : String :=
  String.mk (((s.data.dropWhile isPySpace).reverse.dropWhile isPySpace).reverse)

/-- `get_security_id` (source lines 30-32): uppercase then strip, then the
`or`-chain over the three tables.  Every value in the tables is a nonempty
string, so Python's truthiness-based `or` coincides with `Option.orElse`. -/
def get_security_id (symbol : String) : Option String :=
  let s := pyStrip (pyUpper symbol)
  ((tableGet NIFTY50_STOCKS s).orElse fun _ =>
    (tableGet INDICES_NSE s).orElse fun _ => tableGet INDICES_BSE s)


/-- A value appended to a segment bucket by `build_security_payload`: the
result of `int(sid)` when it succeeds, the raw string otherwise. -/
inductive SidVal where
  | num (n : Nat) : SidVal
  | raw (s : String) : SidVal
deriving Repr, DecidableEq

/-- Python `int(s)` on the identifier strings stored in the tables (plain
digit strings): parses a nonempty all-digit string, fails otherwise. -/
def pyIntOfString? (s : String) : Option Nat :=
  if s.data ≠ [] ∧ s.data.all (·.isDigit) then
    some (s.data.foldl (fun acc c => 10 * acc + (c.toNat - 48)) 0)
  else none

/-- `try: ... append(int(sid)) except: ... append(sid)` (source lines 80-83). -/
def toSidVal (sid : String) : SidVal :=
  match pyIntOfString? sid with
  | some n => .num n
  | none => .raw sid

/-- `seg_map.setdefault(seg, []).append(v)`: append to the bucket of `seg`,
creating it at the end of the (insertion-ordered) dict if absent. -/
def setdefaultAppend : List (String × List SidVal) → String → SidVal →
    List (String × List SidVal)
  | [], seg, v => [(seg, [v])]
  | (k, vs) :: rest, seg, v =>
    if k = seg then (k, vs ++ [v]) :: rest
    else (k, vs) :: setdefaultAppend rest seg v

/-- Loop body accumulation of `build_security_payload` (source lines 67-84):
skip symbols with no identifier, classify the segment by the literal alias
test on `s.upper()`, and append `int(sid)` to the segment bucket. -/
def build_security_payload_from :
    List (String × List SidVal) → List String → List (String × List SidVal)
  | seg_map, [] => seg_map
  | seg_map, s :: rest =>
    match get_security_id s with
    | none => build_security_payload_from seg_map rest
    | some sid =>
      let seg :=
        if pyUpper s ∈ ["NIFTY", "NIFTY 50", "BANKNIFTY", "NIFTY BANK"] then
          "NSE_INDEX"
        else if pyUpper s = "SENSEX" then "BSE_INDEX"
        else "NSE_EQ"
      build_security_payload_from (setdefaultAppend seg_map seg (toSidVal sid)) rest

/-- `build_security_payload` (source lines 67-84). -/
def build_security_payload (symbols : List String) : List (String × List SidVal) :=
  build_security_payload_from [] symbols

/-- `build_security_list` (source lines 229-243): same skip-on-unresolved and
segment classification as the poller's payload builder, producing
`(segment, str(sid))` pairs in symbol order. -/
def build_security_list : List String → List (String × String)
  | [] => []
  | s :: rest =>
    match get_security_id s with
    | none => build_security_list rest
    | some sid =>
      let seg :=
        if pyUpper s ∈ ["NIFTY", "NIFTY 50", "BANKNIFTY", "NIFTY BANK"] then
          "NSE_INDEX"
        else if pyUpper s = "SENSEX" then "BSE_INDEX"
        else "NSE_EQ"
      (seg, sid) :: build_security_list rest

/-- Outcome of one HTTP POST attempt inside `call_dhan_ltp_with_retries`:
either `requests.post` raised (`exc`), or it returned a response with the
given status code whose `r.json()` result is `body` (`none` models a decode
failure, which the source logs and turns into a `None` return). -/
inductive HttpOutcome where
  | exc : HttpOutcome
  | resp (status : Nat) (body : Option JVal) : HttpOutcome

/-- The retry loop of `call_dhan_ltp_with_retries` (source lines 94-111).
`world attempt` is the outcome the network produces on attempt number
`attempt` (1-based); the function returns the Python return value, the
number of attempts performed, and the list of `time.sleep` durations in
order.  A 200 response returns immediately (its decoded body, or `None` when
decoding fails); every other outcome sleeps `backoff * attempt` seconds and
continues. -/
def callLtpLoop (world : Nat → HttpOutcome) (backoff : ℚ) :
    Nat → Nat → Option JVal × Nat × List ℚ
  | _, 0 => (none, 0, [])
  | attempt, rem + 1 =>
    match world attempt with
    | .resp 200 body => (body, 1, [])
    | _ =>
      let r := callLtpLoop world backoff (attempt + 1) rem
      (r.1, r.2.1 + 1, backoff * (attempt : ℚ) :: r.2.2)

/-- `call_dhan_ltp_with_retries` (source lines 86-111), abstracted over the
network (`world`).  The poller calls it with `retries = 3` and the default
`backoff = 1.5`. -/
def call_dhan_ltp_with_retries (world : Nat → HttpOutcome) (retries : Nat)
    (backoff : ℚ) : Option JVal × Nat × List ℚ :=
  callLtpLoop world backoff 1 retries

/-- `sym_map[k] = v` on the poller's label dict (CPython insertion-order
update semantics, as in `storeSet`). -/
def tableSet : List (String × String) → String → String → List (String × String)
  | [], k, v => [(k, v)]
  | (k', v') :: rest, k, v =>
    if k' = k then (k', v) :: rest else (k', v') :: tableSet rest k v

/-- `PollerThread.__init__` construction of `self.sym_map` (source lines
176-180): for each symbol that resolves, `sym_map[s.upper()] = sid`. -/
def initSymMapFrom : List (String × String) → List String → List (String × String)
  | m, [] => m
  | m, s :: rest =>
    match get_security_id s with
    | none => initSymMapFrom m rest
    | some sid => initSymMapFrom (tableSet m (pyUpper s) sid) rest

/-- The poller's `sym_map` right after `__init__`. -/
def initSymMap (symbols : List String) : List (String × String) :=
  initSymMapFrom [] symbols

/-- The first-cycle catalog fallback of `PollerThread.run` (source lines
184-191): when `build_security_payload` over the configured symbols is
empty, merge the mapping downloaded from the instrument CSV into
`self.sym_map` (`sym_map[k.upper()] = v`).  `patched` stands for the return
value of `download_and_build_map`, whose HTTP fetch is external; on network
or parse failure it is the empty mapping. -/
def pollerCatalogPatch (symbols : List String) (symMap : List (String × String))
    (patched : List (String × String)) : List (String × String) :=
  if build_security_payload symbols = [] then
    patched.foldl (fun m kv => tableSet m (pyUpper kv.1) kv.2) symMap
  else symMap

/-- `or`-chain over the four price aliases used by `format_poll_message`
(source line 152): first truthy value, else the last `get` result. -/
def infoLtp4 (info : List (String × JVal)) : JVal :=
  pyOr (objGetJ info "last_price") (pyOr (objGetJ info "ltp")
    (pyOr (objGetJ info "lastPrice") (objGetJ info "price")))

/-- One formatted line of the poller snapshot (source lines 149-164): skip
records without a usable price, reverse-map the identifier through
`symbol_map` for a readable label (`readable or secid` falls back to the
identifier when no label is found or the label is falsy). -/
def pollLine (symbol_map : List (String × String)) (seg secid : String)
    (info : List (String × JVal)) : Option String :=
  let ltp := infoLtp4 info
  if isNull ltp then none
  else
    let shown :=
      match findKeyByVal symbol_map secid with
      | some k => if k = "" then secid else k
      | none => secid
    some ("<b>" ++ shown ++ "</b>  LTP: <code>" ++ pyStr ltp ++ "</code>  (" ++
      seg ++ ")")

/-- Lines contributed by one segment bucket (source lines 149-164). -/
def bucketLines (symbol_map : List (String × String)) (seg : String) :
    List (String × JVal) → List String
  | [] => []
  | (secid, info) :: rest =>
    (match info with
     | .jobj f =>
       match pollLine symbol_map seg secid f with
       | some l => [l]
       | none => []
     | _ => []) ++ bucketLines symbol_map seg rest

/-- Lines over all segment buckets (source lines 146-164): non-dict buckets
are skipped. -/
def segLines (symbol_map : List (String × String)) :
    List (String × JVal) → List String
  | [] => []
  | (seg, bucket) :: rest =>
    (match bucket with
     | .jobj infos => bucketLines symbol_map seg infos
     | _ => []) ++ segLines symbol_map rest

/-- `format_poll_message` (source lines 137-167).  A falsy response (`None`,
empty dict, ...) yields the no-response line; otherwise the `data` member is
used when truthy (falling back to the whole response), each dict-shaped
record with a usable price becomes a line, and zero lines yields the
diagnostic placeholder. -/
def format_poll_message (json_resp : Option JVal)
    (symbol_map : List (String × String)) (now : String) : String :=
  let notruthy := "⏱ " ++ now ++ " — Poller: no response from Dhan"
  match json_resp with
  | none => notruthy
  | some resp =>
    if !truthy resp then notruthy
    else
      let data :=
        match resp with
        | .jobj fields =>
          let d := objGetJ fields "data"
          if truthy d then d else resp
        | _ => resp
      let lines :=
        match data with
        | .jobj segs => segLines symbol_map segs
        | _ => []
      if lines = [] then
        "⏱ " ++ now ++ " — Poller: response received but no LTP fields found (see logs)"
      else
        "⏱ " ++ now ++ " — Poller snapshot:\n" ++ String.intercalate "\n" lines

/-- One outbound `send_telegram` call of the poller loop, tagged by call
site: the rate-limited diagnostic (source line 202), the recovery notice
(line 205), or the per-cycle snapshot (line 207). -/
inductive PollSend where
  | diag (text : String) : PollSend
  | recovered (text : String) : PollSend
  | snap (text : String) : PollSend
deriving Repr, DecidableEq

/-- One iteration of the `while True` body of `PollerThread.run` (source
lines 192-212), given the consecutive-failure counter and the result `resp`
of `call_dhan_ltp_with_retries` for this cycle (`none` = all retries
failed).  Returns the new counter and the notifications sent, in order. -/
def pollCycle (failed : Nat) (resp : Option JVal)
    (sym_map : List (String × String)) (now : String) : Nat × List PollSend :=
  let msg := format_poll_message resp sym_map now
  match resp with
  | none =>
    (failed + 1,
      if (failed + 1) % 5 = 1 then
        [.diag (msg ++ "\n[poller diagnostic] check logs for HTTP status and response text.")]
      else [])
  | some _ =>
    (0,
      (if failed > 0 then
        [.recovered ("⏱ " ++ now ++ " — Poller recovered. Sending snapshot now.")]
      else []) ++ [.snap msg])

/-- The mutable state of the whole process that the two ingestion paths
could share: the poller's failure counter and the streaming client's
`last_ltps` store (source lines 181 and 251). -/
structure SysState where
  failed : Nat
  last_ltps : Store
deriving Repr

/-- One poller iteration viewed on the whole process state.  The body of
`PollerThread.run` (source lines 184-212) contains no reference to the
streaming client's `last_ltps` dict — the poller and the client are
connected only by module-level configuration — so the store component passes
through unchanged. -/
def pollCycleSys (st : SysState) (resp : Option JVal)
    (sym_map : List (String × String)) (now : String) : SysState × List PollSend :=
  let r := pollCycle st.failed resp sym_map now
  (⟨r.1, st.last_ltps⟩, r.2)

/-- A run of consecutive poller cycles with the given per-cycle results,
returning the final counter and the notifications of each cycle. -/
def pollRun (failed : Nat) (sym_map : List (String × String)) (now : String) :
    List (Option JVal) → Nat × List (List PollSend)
  | [] => (failed, [])
  | resp :: rest =>
    let c := pollCycle failed resp sym_map now
    let r := pollRun c.1 sym_map now rest
    (r.1, c.2 :: r.2)

/-- `or`-chain over the three nested price aliases of the streaming handler
(source line 292). -/
def infoLtp3 (info : List (String × JVal)) : JVal :=
  pyOr (objGetJ info "last_price") (pyOr (objGetJ info "ltp")
    (objGetJ info "lastPrice"))

/-- Inner loop of the nested extraction (source lines 290-295): first
dict-shaped instrument record whose alias chain is not `None`, paired with
its identifier key. -/
def scanInfos : List (String × JVal) → Option (String × JVal)
  | [] => none
  | (instid, info) :: rest =>
    match info with
    | .jobj f =>
      let l := infoLtp3 f
      if isNull l then scanInfos rest else some (instid, l)
    | _ => scanInfos rest

/-- Outer loop of the nested extraction (source lines 288-297): first
segment bucket producing a hit; non-dict buckets are skipped. -/
def scanBuckets : List (String × JVal) → Option (String × JVal)
  | [] => none
  | (_, v) :: rest =>
    match v with
    | .jobj infos =>
      match scanInfos infos with
      | some r => some r
      | none => scanBuckets rest
    | _ => scanBuckets rest

/-- Nested extraction including the `payload` selection (source line 286):
`data['data']` when the key is present (`'data' in data`), else `data`
itself; non-dict payloads yield nothing. -/
def extractNested (data : JVal) : Option (String × JVal) :=
  match data with
  | .jobj fields =>
    let payload := if (objGet fields "data").isSome then objGetJ fields "data" else data
    match payload with
    | .jobj pf => scanBuckets pf
    | _ => none
  | _ => none

/-- Top-level fallback chain for the price (source line 299). -/
def topLtp (fields : List (String × JVal)) : JVal :=
  pyOr (objGetJ fields "ltp") (pyOr (objGetJ fields "last_price")
    (pyOr (objGetJ fields "lastPrice") (objGetJ fields "price")))

/-- Top-level fallback chain for the symbol (source line 300); the prior
`symbol` is still `None` whenever this chain runs. -/
def topSymbol (fields : List (String × JVal)) : JVal :=
  pyOr (objGetJ fields "symbol") (pyOr (objGetJ fields "instrument") .jnull)

/-- The full extraction of `(symbol, ltp)` from a parsed message (source
lines 283-301): the nested scan wins; otherwise the top-level chain, kept
only when its result is not `None`; non-dict messages yield nothing. -/
def extractTick (data : JVal) : Option (JVal × JVal) :=
  match data with
  | .jobj fields =>
    match extractNested data with
    | some r => some (.jstr r.1, r.2)
    | none =>
      let l := topLtp fields
      if isNull l then none else some (topSymbol fields, l)
  | _ => none

/-- Readable-label resolution (source lines 303-320): `sid = str(symbol)`,
then three sequential reverse-lookup loops; a later loop's hit overwrites an
earlier one (the table values are disjoint, so at most one loop hits), and
with no hit the raw symbol value stands. -/
def wsReadable (symbol : JVal) : JVal :=
  let sid := pyStr symbol
  let r1 := match findKeyByVal NIFTY50_STOCKS sid with
    | some k => JVal.jstr k
    | none => symbol
  let r2 := match findKeyByVal INDICES_NSE sid with
    | some k => JVal.jstr k
    | none => r1
  match findKeyByVal INDICES_BSE sid with
  | some k => JVal.jstr k
  | none => r2

/-- The tick-store key (source line 322): `f"{readable}:{sid}"` when `sid`
is truthy (a nonempty string), else `readable` itself (reachable only for
the empty-string symbol, whose readable form is also the empty string). -/
def wsKey (symbol : JVal) : String :=
  let sid := pyStr symbol
  if sid ≠ "" then pyStr (wsReadable symbol) ++ ":" ++ sid
  else pyStr (wsReadable symbol)

/-- The notification text (source line 325). -/
def tickText (now : String) (symbol ltp : JVal) : String :=
  "⏱ " ++ now ++ " — <b>" ++ pyStr (wsReadable symbol) ++ "</b> LTP: <code>" ++
    pyStr ltp ++ "</code>"

/-- `prev != ltp` (source line 326), where `prev = last_ltps.get(key)` is
the Python `None` when the key is absent. -/
def tickChanged (prev : Option JVal) (ltp : JVal) : Bool :=
  !pyEq (prev.getD .jnull) ltp

/-- Lines 283-328 of `DhanWebsocketClient.on_message`: extraction followed
by the guarded store-and-notify block.  Returns the new `last_ltps` and the
texts passed to `send_telegram`, in order. -/
def handleData (now : String) (store : Store) (data : JVal) : Store × List String :=
  match extractTick data with
  | none => (store, [])
  | some (symbol, ltp) =>
    let key := wsKey symbol
    let prev := storeGet store key
    let store' := storeSet store key ltp
    (store', if tickChanged prev ltp then [tickText now symbol ltp] else [])

/-- An inbound websocket frame as `on_message` receives it: a text frame,
or a binary frame tagged with the result of `message.decode("utf-8")`
(`none` models a raised `UnicodeDecodeError`). -/
inductive Msg where
  | text (s : String) : Msg
  | binary (decoded : Option String) : Msg

/-- `DhanWebsocketClient.on_message` (source lines 270-328), abstracted over
`json.loads` (`parse`, with `none` modelling a raised decode error) and the
wall clock (`now`).  Undecodable binary frames and unparsable text return
early with no effect. -/
def on_message (parse : String → Option JVal) (now : String) (store : Store) :
    Msg → Store × List String
  | .binary none => (store, [])
  | .binary (some s) =>
    (match parse s with
     | none => (store, [])
     | some data => handleData now store data)
  | .text s =>
    (match parse s with
     | none => (store, [])
     | some data => handleData now store data)

/-- A sequence of parsed messages fed through the handler, collecting the
notifications of each message. -/
def streamRun (now : String) : Store → List JVal → Store × List (List String)
  | store, [] => (store, [])
  | store, d :: rest =>
    let r := handleData now store d
    let k := streamRun now r.1 rest
    (k.1, r.2 :: k.2)

/-- An attempt outcome the retry loop treats as failed: a raised transport
exception or any non-200 status (source lines 104-108). -/
def isFailOutcome : HttpOutcome → Bool
  | .exc => true
  | .resp s _ => s ≠ 200

/-- Grouping of `(segment, sid)` pairs by segment with `int` conversion,
exactly the accumulation step of `build_security_payload`; used to state
that the poller's payload is the segment-grouping of the streaming client's
subscription list. -/
def groupBySegment (pairs : List (String × String)) : List (String × List SidVal) :=
  pairs.foldl (fun m p => setdefaultAppend m p.1 (toSidVal p.2)) []

/-- A minimal top-level streaming message carrying a symbol and a price. -/
def tickMsg (sym : String) (p : ℚ) : JVal :=
  .jobj [("symbol", .jstr sym), ("price", .jnum p)]

/-- The expected notification pattern for a price sequence: notify at a
position exactly when the price differs from the price stored beforehand
(`prev`, `none` when no record exists — so a first observation under a fresh
key always notifies). -/
def changeFlagsFrom : Option ℚ → List ℚ → List Bool
  | _, [] => []
  | prev, p :: rest => decide (prev ≠ some p) :: changeFlagsFrom (some p) rest

/-- The four price-field aliases the program probes for. -/
def priceKeys : List String := ["last_price", "ltp", "lastPrice", "price"]

/-- No price-alias key occurs anywhere in the value (fuelled recursion; the
wrapper passes `jsize`, which bounds the depth, and running out of fuel
yields `false`, so the predicate only ever asserts absence). -/
def noPriceKeysF : Nat → JVal → Bool
  | 0, _ => false
  | f + 1, .jobj fields =>
    fields.all fun kv => !(priceKeys.contains kv.1) && noPriceKeysF f kv.2
  | f + 1, .jarr l => l.all (noPriceKeysF f)
  | _ + 1, _ => true

/-- A well-formed JSON value containing no price field at any depth. -/
def noPriceKeys (v : JVal) : Bool := noPriceKeysF (jsize v) v

/-- A sample successful snapshot response: RELIANCE (id 2885) at price 100
in the NSE_EQ bucket. -/
def respEx : JVal :=
  .jobj [("data", .jobj [("NSE_EQ", .jobj [("2885", .jobj [("last_price", .jnum 100)])])])]

/-- Claim C4 counterexample: a successful poll cycle that observes the price
100 for RELIANCE (the price appears in the snapshot notification) leaves the
streaming client's `last_ltps` store untouched — the key the streaming
handler would record this very tick under (`RELIANCE:2885`, third conjunct)
is still absent after the cycle.  The poller formats and sends directly and
never writes the tick store. -/
theorem poller_store_counterexample :
    pollCycleSys ⟨0, []⟩ (some respEx) [("RELIANCE", "2885")] "T" =
      (⟨0, []⟩,
        [.snap "⏱ T — Poller snapshot:\n<b>RELIANCE</b>  LTP: <code>100</code>  (NSE_EQ)"]) ∧
    storeGet (pollCycleSys ⟨0, []⟩ (some respEx) [("RELIANCE", "2885")] "T").1.last_ltps
        "RELIANCE:2885" = none ∧
    (handleData "T" [] respEx).1 = [("RELIANCE:2885", .jnum 100)] :=
  ⟨rfl, rfl, rfl⟩

/-- Claim C4 (amended): a poll cycle never changes the streaming client's
`last_ltps` store — the body of `PollerThread.run` contains no reference to
it; observed prices are routed to the notifier only. -/
theorem poller_leaves_tick_store_unchanged (st : SysState) (resp : Option JVal)
    (m : List (String × String)) (now : String) :
    (pollCycleSys st resp m now).1.last_ltps = st.last_ltps := rfl

/-- Claim C5 (code bug): after the first-cycle catalog fetch discovers the
identifier 999 for the unresolved symbol FOO and the mapping is patched into
the poller's `sym_map` (first conjunct), re-resolving FOO still returns
nothing (second conjunct) and the next cycle's poll payload is still empty
(third conjunct): the patch lands in the label map used by
`format_poll_message`, while `build_security_payload` keeps consulting only
the static tables through `get_security_id`. -/
theorem catalog_patch_bypasses_resolution :
    pollerCatalogPatch ["FOO"] (initSymMap ["FOO"]) [("FOO", "999")] = [("FOO", "999")] ∧
    get_security_id "FOO" = none ∧
    build_security_payload ["FOO"] = [] :=
  ⟨rfl, rfl, rfl⟩

/-- Claim C8 counterexample: the alias NIFTY has no identifier in any static
table, so resolution excludes it instead of classifying it as NSE_INDEX. -/
theorem nifty_not_classified :
    get_security_id "NIFTY" = none ∧ build_security_list ["NIFTY"] = [] :=
  ⟨rfl, rfl⟩

/-- Claim C8 (amended): every symbol of the configured index-alias set that
resolves to an identifier is classified into its index segment (NIFTY 50,
NIFTY BANK, BANKNIFTY → NSE_INDEX; SENSEX → BSE_INDEX); NIFTY does not
resolve and is excluded (see `nifty_not_classified`); and every other symbol
that resolves is classified NSE_EQ. -/
theorem segment_classification_amended :
    build_security_list ["NIFTY 50"] = [("NSE_INDEX", "13")] ∧
    build_security_list ["NIFTY BANK"] = [("NSE_INDEX", "25")] ∧
    build_security_list ["BANKNIFTY"] = [("NSE_INDEX", "25")] ∧
    build_security_list ["SENSEX"] = [("BSE_INDEX", "51")] ∧
    ∀ s sid, get_security_id s = some sid →
      pyUpper s ∉ (["NIFTY", "NIFTY 50", "BANKNIFTY", "NIFTY BANK", "SENSEX"] : List String) →
      build_security_list [s] = [("NSE_EQ", sid)] := by
  refine ⟨rfl, rfl, rfl, rfl, ?_⟩
  intro s sid h hnot
  simp only [build_security_list, h]
  have h4 : pyUpper s ∉ (["NIFTY", "NIFTY 50", "BANKNIFTY", "NIFTY BANK"] : List String) := by
    intro hmem
    exact hnot (by simp only [List.mem_cons, List.mem_singleton] at hmem ⊢; tauto)
  have h5 : pyUpper s ≠ "SENSEX" := by
    intro he
    exact hnot (by simp [he])
  simp [h4, h5]

/-- Claim C8 witness: the resolvable non-alias symbol TCS is classified
NSE_EQ. -/
theorem segment_classification_amended_witness :
    build_security_list ["TCS"] = [("NSE_EQ", "11536")] :=
  segment_classification_amended.2.2.2.2 "TCS" "11536" rfl (by decide)

/-- Accumulator form: the poller's payload fold over the symbols equals the
grouping fold over the subscription list. -/
theorem build_security_payload_from_eq (symbols : List String) :
    ∀ m, build_security_payload_from m symbols =
      (build_security_list symbols).foldl
        (fun m p => setdefaultAppend m p.1 (toSidVal p.2)) m := by
  induction symbols with
  | nil => intro m; rfl
  | cons s rest ih =>
    intro m
    simp only [build_security_payload_from, build_security_list]
    cases h : get_security_id s with
    | none => simpa using ih m
    | some sid => simpa using ih _

/-- Claim C9: the poller's grouped payload is exactly the segment-grouping
(with `int` conversion) of the streaming client's subscription list: both
paths drop exactly the symbols with no identifier and give each kept symbol
the same segment. -/
theorem payload_refines_security_list (symbols : List String) :
    build_security_payload symbols = groupBySegment (build_security_list symbols) :=
  build_security_payload_from_eq symbols []

/-- The retry loop performs at most `rem` attempts. -/
theorem callLtpLoop_attempts_le (world : Nat → HttpOutcome) (b : ℚ) :
    ∀ rem a, (callLtpLoop world b a rem).2.1 ≤ rem := by
  intro rem
  induction rem with
  | zero => intro a; simp [callLtpLoop]
  | succ n ih =>
    intro a
    simp only [callLtpLoop]
    split
    · simp
    · simpa using Nat.succ_le_succ (ih (a + 1))

/-- A failed attempt (exception or non-200) consumes one attempt, sleeps
`backoff * attempt`, and continues. -/
theorem callLtpLoop_fail_step (world : Nat → HttpOutcome) (b : ℚ) (a rem : Nat)
    (h : isFailOutcome (world a) = true) :
    callLtpLoop world b a (rem + 1) =
      ((callLtpLoop world b (a + 1) rem).1,
       (callLtpLoop world b (a + 1) rem).2.1 + 1,
       b * (a : ℚ) :: (callLtpLoop world b (a + 1) rem).2.2) := by
  simp only [callLtpLoop]
  rcases hw : world a with _ | ⟨s, body⟩
  · rfl
  · have hs : s ≠ 200 := by
      intro he
      rw [hw, he] at h
      simp [isFailOutcome] at h
    split
    · rename_i heq
      injection heq with h1 h2
      exact absurd h1 hs
    · rfl

/-- A 200 response returns its decoded body immediately. -/
theorem callLtpLoop_success_step (world : Nat → HttpOutcome) (b : ℚ) (a rem : Nat)
    (body : Option JVal) (h : world a = .resp 200 body) :
    callLtpLoop world b a (rem + 1) = (body, 1, []) := by
  simp [callLtpLoop, h]

/-- Claim C6: the snapshot caller as the poller invokes it (`retries = 3`)
performs at most 3 attempts (first conjunct); if the attempts before `k` all
fail (non-200 or exception) and attempt `k ≤ 3` returns status 200, it
returns that response's decoded body after exactly `k` attempts, having
slept the linearly increasing delays `backoff * 1, ..., backoff * (k-1)`
(second conjunct); and if all 3 attempts fail it returns `None` — not an
exception — after sleeping `backoff * 1, backoff * 2, backoff * 3` (third
conjunct). -/
theorem ltp_retry_contract (world : Nat → HttpOutcome) (backoff : ℚ) :
    (call_dhan_ltp_with_retries world 3 backoff).2.1 ≤ 3 ∧
    (∀ k body, 1 ≤ k → k ≤ 3 →
      (∀ j, 1 ≤ j → j < k → isFailOutcome (world j) = true) →
      world k = .resp 200 body →
      call_dhan_ltp_with_retries world 3 backoff =
        (body, k, (List.range (k - 1)).map fun j => backoff * ((j : ℚ) + 1))) ∧
    ((∀ j, 1 ≤ j → j ≤ 3 → isFailOutcome (world j) = true) →
      call_dhan_ltp_with_retries world 3 backoff =
        (none, 3, [backoff * 1, backoff * 2, backoff * 3])) := by
  refine ⟨callLtpLoop_attempts_le world backoff 3 1, ?_, ?_⟩
  · intro k body hk1 hk3 hfail hsucc
    unfold call_dhan_ltp_with_retries
    interval_cases k
    · rw [callLtpLoop_success_step world backoff 1 2 body hsucc]
      simp
    · rw [callLtpLoop_fail_step world backoff 1 2 (hfail 1 (by norm_num) (by norm_num)),
        callLtpLoop_success_step world backoff 2 1 body hsucc]
      norm_num [List.range_succ]
    · rw [callLtpLoop_fail_step world backoff 1 2 (hfail 1 (by norm_num) (by norm_num)),
        callLtpLoop_fail_step world backoff 2 1 (hfail 2 (by norm_num) (by norm_num)),
        callLtpLoop_success_step world backoff 3 0 body hsucc]
      norm_num [List.range_succ]
  · intro hfail
    unfold call_dhan_ltp_with_retries
    rw [callLtpLoop_fail_step world backoff 1 2 (hfail 1 (by norm_num) (by norm_num)),
      callLtpLoop_fail_step world backoff 2 1 (hfail 2 (by norm_num) (by norm_num)),
      callLtpLoop_fail_step world backoff 3 0 (hfail 3 (by norm_num) (by norm_num))]
    norm_num [callLtpLoop]

/-- Claim C6 witness: one exception, one HTTP 500, then a 200 carrying the
number 7 — three attempts, two sleeps of 1.5 and 3.0 seconds, result 7. -/
theorem ltp_retry_contract_witness :
    call_dhan_ltp_with_retries
        (fun i => if i = 1 then .exc else if i = 2 then .resp 500 none
          else .resp 200 (some (.jnum 7))) 3 (3 / 2) =
      (some (.jnum 7), 3, (List.range 2).map fun j => (3 / 2 : ℚ) * ((j : ℚ) + 1)) := by
  refine (ltp_retry_contract _ (3 / 2)).2.1 3 (some (.jnum 7)) (by norm_num) (by norm_num) ?_ rfl
  intro j h1 h3
  interval_cases j <;> rfl

/-- The notifications of one failed poll cycle whose incremented counter is
`k`: the diagnostic exactly when `k` is 1 mod 5 (source lines 199-202). -/
def diagCell (m : List (String × String)) (now : String) (k : Nat) : List PollSend :=
  if k % 5 = 1 then
    [PollSend.diag (format_poll_message none m now ++
      "\n[poller diagnostic] check logs for HTTP status and response text.")]
  else []

/-- Over `N` failed cycles starting at counter `c`, each cycle increments
the counter and sends `diagCell` of the incremented counter. -/
theorem pollRun_replicate_none (m : List (String × String)) (now : String) :
    ∀ (N c : Nat),
      pollRun c m now (List.replicate N none) =
        (c + N, (List.range N).map fun j => diagCell m now (c + j + 1)) := by
  intro N
  induction N with
  | zero => intro c; simp [pollRun]
  | succ n ih =>
    intro c
    simp only [List.replicate_succ, pollRun, pollCycle]
    rw [ih (c + 1), List.range_succ_eq_map, List.map_cons, List.map_map]
    refine Prod.ext (by omega) ?_
    show _ :: _ = _ :: _
    congr 1
    refine List.map_congr_left fun j _ => ?_
    simp only [Function.comp]
    have he : c + 1 + j + 1 = c + (j + 1) + 1 := by omega
    rw [he]

/-- Claim C3: starting a failure streak (counter 0, as at startup and after
every success), `N` consecutive failed cycles send the diagnostic exactly on
streak cycles 1, 6, 11, ... (1-based position ≡ 1 mod 5) and increment the
counter once per cycle, ending at `N`; the first successful cycle after the
streak sends exactly one "recovered" notification followed by the normal
snapshot, with the counter reset to 0 before the snapshot is sent. -/
theorem poller_failure_streak (N : Nat) (hN : 1 ≤ N) (r : JVal)
    (m : List (String × String)) (now : String) :
    pollRun 0 m now (List.replicate N none) =
      (N, (List.range N).map fun j => diagCell m now (j + 1)) ∧
    pollCycle N (some r) m now =
      (0, [PollSend.recovered ("⏱ " ++ now ++ " — Poller recovered. Sending snapshot now."),
           PollSend.snap (format_poll_message (some r) m now)]) := by
  constructor
  · simpa using pollRun_replicate_none m now N 0
  · have h0 : 0 < N := hN
    simp [pollCycle, h0]

/-- Claim C3 witness: six failed cycles then a success — diagnostics exactly
on streak cycles 1 and 6, counter 6 then reset, one recovery notice before
the snapshot. -/
theorem poller_failure_streak_witness :
    pollRun 0 [] "T" (List.replicate 6 none) =
      (6, (List.range 6).map fun j => diagCell [] "T" (j + 1)) ∧
    pollCycle 6 (some (.jnum 1)) [] "T" =
      (0, [PollSend.recovered "⏱ T — Poller recovered. Sending snapshot now.",
           PollSend.snap (format_poll_message (some (.jnum 1)) [] "T")]) :=
  poller_failure_streak 6 (by norm_num) (.jnum 1) [] "T"

/-- After `store[key] = v`, looking up `key` yields `v`. -/
theorem storeGet_storeSet_self (S : Store) (k : String) (v : JVal) :
    storeGet (storeSet S k v) k = some v := by
  induction S with
  | nil => simp [storeSet, storeGet]
  | cons kv rest ih =>
    by_cases h : kv.1 = k
    · simp [storeSet, storeGet, h]
    · simp [storeSet, storeGet, h, ih]

/-- Python `None == v` holds exactly for `v = None`. -/
theorem pyEq_null (v : JVal) : pyEq .jnull v = isNull v := by
  cases v <;> rfl

/-- Two numbers are Python-equal exactly when the rationals are equal. -/
theorem pyEq_num (a b : ℚ) : pyEq (.jnum a) (.jnum b) = decide (a = b) := by
  show (a == b) = decide (a = b)
  rw [Bool.eq_iff_iff]
  simp

/-- A first observation (no stored record) of a non-`None` price counts as
changed. -/
theorem tickChanged_none (v : JVal) (h : isNull v = false) :
    tickChanged none v = true := by
  simp [tickChanged, Option.getD, pyEq_null, h]

/-- Change detection between stored and observed numeric prices is rational
inequality. -/
theorem tickChanged_num (a b : ℚ) :
    tickChanged (some (.jnum a)) (.jnum b) = decide (a ≠ b) := by
  simp [tickChanged, Option.getD, pyEq_num]

/-- The nested scan only returns non-`None` prices. -/
theorem scanInfos_not_null (infos : List (String × JVal)) (i : String) (v : JVal)
    (h : scanInfos infos = some (i, v)) : isNull v = false := by
  induction infos with
  | nil => simp [scanInfos] at h
  | cons kv rest ih =>
    rcases kv with ⟨instid, info⟩
    cases info with
    | jobj f =>
      simp only [scanInfos] at h
      by_cases hn : isNull (infoLtp3 f) = true
      · rw [if_pos hn] at h
        exact ih h
      · rw [if_neg hn] at h
        cases h
        simpa using hn
    | jnull => exact ih (by simpa [scanInfos] using h)
    | jbool b => exact ih (by simpa [scanInfos] using h)
    | jnum q => exact ih (by simpa [scanInfos] using h)
    | jstr s => exact ih (by simpa [scanInfos] using h)
    | jarr l => exact ih (by simpa [scanInfos] using h)

/-- The bucket scan only returns non-`None` prices. -/
theorem scanBuckets_not_null (pf : List (String × JVal)) (i : String) (v : JVal)
    (h : scanBuckets pf = some (i, v)) : isNull v = false := by
  induction pf with
  | nil => simp [scanBuckets] at h
  | cons kv rest ih =>
    rcases kv with ⟨seg, bucket⟩
    cases bucket with
    | jobj infos =>
      simp only [scanBuckets] at h
      cases hs : scanInfos infos with
      | none => rw [hs] at h; exact ih h
      | some r =>
        rw [hs] at h
        have hr := Option.some_inj.mp h
        subst hr
        exact scanInfos_not_null infos i v hs
    | jnull => exact ih (by simpa [scanBuckets] using h)
    | jbool b => exact ih (by simpa [scanBuckets] using h)
    | jnum q => exact ih (by simpa [scanBuckets] using h)
    | jstr s => exact ih (by simpa [scanBuckets] using h)
    | jarr l => exact ih (by simpa [scanBuckets] using h)

/-- A successful extraction never carries the Python `None` as price. -/
theorem extractTick_not_null (data symbol ltp : JVal)
    (h : extractTick data = some (symbol, ltp)) : isNull ltp = false := by
  cases data with
  | jobj fields =>
    simp only [extractTick] at h
    cases hn : extractNested (.jobj fields) with
    | some r =>
      rw [hn] at h
      cases h
      simp only [extractNested] at hn
      split at hn
      · exact scanBuckets_not_null _ _ _ hn
      · exact absurd hn (by simp)
    | none =>
      rw [hn] at h
      by_cases hl : isNull (topLtp fields) = true
      · rw [if_pos hl] at h; cases h
      · rw [if_neg hl] at h
        cases h
        simpa using hl
  | jnull => simp [extractTick] at h
  | jbool b => simp [extractTick] at h
  | jnum q => simp [extractTick] at h
  | jstr s => simp [extractTick] at h
  | jarr l => simp [extractTick] at h

/-- Claim C2: a well-formed message from which the handler extracts the
price `ltp` for a symbol whose tick key has no prior record results in the
price being stored under that key and exactly one notification being sent —
for every extracted price value, including 0 (see the witness). -/
theorem ws_first_observation_notifies (now : String) (S : Store)
    (data symbol ltp : JVal)
    (hx : extractTick data = some (symbol, ltp))
    (hfresh : storeGet S (wsKey symbol) = none) :
    handleData now S data = (storeSet S (wsKey symbol) ltp, [tickText now symbol ltp]) := by
  have hnn : isNull ltp = false := extractTick_not_null data symbol ltp hx
  simp [handleData, hx, hfresh, tickChanged_none ltp hnn]

/-- Claim C2 witness: the price 0 with no symbol field, observed on an empty
store, is stored and notified. -/
theorem ws_first_observation_notifies_witness :
    extractTick (.jobj [("price", .jnum 0)]) = some (.jnull, .jnum 0) ∧
    storeGet [] (wsKey .jnull) = none ∧
    handleData "T" [] (.jobj [("price", .jnum 0)]) =
      (storeSet [] (wsKey .jnull) (.jnum 0), [tickText "T" .jnull (.jnum 0)]) :=
  ⟨rfl, rfl, ws_first_observation_notifies "T" [] _ _ _ rfl rfl⟩

/-- Extraction on a minimal top-level message: the `or`-chains yield the
`price` field (even when the price is 0, since the chain returns its last
operand) and the `symbol` field (nonempty, hence truthy). -/
theorem extractTick_tickMsg (sym : String) (h : sym ≠ "") (p : ℚ) :
    extractTick (tickMsg sym p) = some (.jstr sym, .jnum p) := by
  simp [tickMsg, extractTick, extractNested, scanBuckets, topLtp, topSymbol,
    objGetJ, objGet, pyOr, truthy, isNull, h]

/-- One handled tick of a minimal top-level message: store under the derived
key, notify exactly when the stored value differs. -/
theorem handleData_tickMsg (now : String) (S : Store) (sym : String)
    (h : sym ≠ "") (p : ℚ) :
    handleData now S (tickMsg sym p) =
      (storeSet S (wsKey (.jstr sym)) (.jnum p),
       if tickChanged (storeGet S (wsKey (.jstr sym))) (.jnum p) then
         [tickText now (.jstr sym) (.jnum p)]
       else []) := by
  simp [handleData, extractTick_tickMsg sym h p]

/-- Claim C1: feeding the handler any sequence of prices under a fixed
symbol (hence a fixed tick key), starting from a store whose record for that
key is `prevq` (mapped to a number) or absent (`none`), sends a notification
exactly at the positions where the price differs from the previously stored
price, i.e. where the price differs from its predecessor in the sequence or
— at the first position — from `prevq`, with a fresh key always notifying
first; identical repeats never notify. -/
theorem ws_change_gating (sym : String) (h : sym ≠ "") (now : String) :
    ∀ (ps : List ℚ) (S : Store) (prevq : Option ℚ),
      storeGet S (wsKey (.jstr sym)) = prevq.map .jnum →
      (streamRun now S (ps.map (tickMsg sym))).2.map (fun l => !l.isEmpty) =
        changeFlagsFrom prevq ps := by
  intro ps
  induction ps with
  | nil => intro S prevq _; simp [streamRun, changeFlagsFrom]
  | cons p rest ih =>
    intro S prevq hprev
    simp only [List.map_cons, streamRun, handleData_tickMsg now S sym h p]
    rw [ih (storeSet S (wsKey (.jstr sym)) (.jnum p)) (some p)
      (by simpa using storeGet_storeSet_self S (wsKey (.jstr sym)) (.jnum p))]
    simp only [changeFlagsFrom]
    congr 1
    rw [hprev] at *
    cases prevq with
    | none =>
      simp [tickChanged_none (.jnum p) rfl, hprev]
    | some q =>
      rw [hprev]
      by_cases hq : q = p
      · simp [tickChanged_num, hq]
      · simp [tickChanged_num, hq]

/-- Claim C1 witness: prices 2800, 2800, 2806 for RELIANCE on an empty store
notify exactly at positions 0 and 2 (`changeFlagsFrom none` evaluates to
`[true, false, true]`). -/
theorem ws_change_gating_witness :
    (streamRun "T" [] ([2800, 2800, 2806].map (tickMsg "RELIANCE"))).2.map
        (fun l => !l.isEmpty) = changeFlagsFrom none [2800, 2800, 2806] ∧
    changeFlagsFrom none [2800, 2800, 2806] = [true, false, true] :=
  ⟨ws_change_gating "RELIANCE" (by decide) "T" [2800, 2800, 2806] [] none rfl,
   by decide⟩

/-- Claim C10: a valid top-level message with a usable price but neither a
`symbol` nor an `instrument` field (and no nested match) is keyed under the
literal string "None:None" and labelled "None" in the notification text —
every such unidentified tick shares this single deduplication slot. -/
theorem ws_unidentified_tick_slot (now : String) (S : Store)
    (fields : List (String × JVal)) (ltp : JVal)
    (h1 : objGet fields "symbol" = none) (h2 : objGet fields "instrument" = none)
    (h3 : extractNested (.jobj fields) = none)
    (h4 : topLtp fields = ltp) (h5 : isNull ltp = false) :
    handleData now S (.jobj fields) =
      (storeSet S "None:None" ltp,
       if tickChanged (storeGet S "None:None") ltp then
         ["⏱ " ++ now ++ " — <b>None</b> LTP: <code>" ++ pyStr ltp ++ "</code>"]
       else []) := by
  have hsym : topSymbol fields = .jnull := by
    simp [topSymbol, objGetJ, h1, h2, pyOr, truthy]
  have hx : extractTick (.jobj fields) = some (.jnull, ltp) := by
    simp [extractTick, h3, h4, h5, hsym]
  have hkey : wsKey .jnull = "None:None" := rfl
  have htext : tickText now .jnull ltp =
      "⏱ " ++ now ++ " — <b>None</b> LTP: <code>" ++ pyStr ltp ++ "</code>" := by
    simp [tickText, pyStr, wsReadable, findKeyByVal, NIFTY50_STOCKS, INDICES_NSE,
      INDICES_BSE, String.append_assoc]
  simp [handleData, hx, hkey, htext]

/-- Claim C10 witness: the tick `{"price": 101}` lands in slot "None:None";
with the value 101 already stored there (by an earlier unidentified tick) it
is deduplicated — stored again, not notified. -/
theorem ws_unidentified_tick_slot_witness :
    handleData "T" [("None:None", .jnum 101)] (.jobj [("price", .jnum 101)]) =
      (storeSet [("None:None", .jnum 101)] "None:None" (.jnum 101),
       if tickChanged (storeGet [("None:None", .jnum 101)] "None:None") (.jnum 101) then
         ["⏱ " ++ "T" ++ " — <b>None</b> LTP: <code>" ++ pyStr (.jnum 101) ++ "</code>"]
       else []) :=
  ws_unidentified_tick_slot "T" [("None:None", .jnum 101)] [("price", .jnum 101)]
    (.jnum 101) rfl rfl rfl rfl rfl

/-- Key absence: if every key of `fields` avoids the price aliases, looking
up a price alias yields nothing. -/
theorem objGet_none_of_all (f : Nat) (k : String) (hk : priceKeys.contains k = true) :
    ∀ fields : List (String × JVal),
      (fields.all fun kv => !(priceKeys.contains kv.1) && noPriceKeysF f kv.2) = true →
      objGet fields k = none := by
  intro fields
  induction fields with
  | nil => intro _; rfl
  | cons kv rest ih =>
    intro h
    rw [List.all_cons, Bool.and_eq_true] at h
    rcases h with ⟨h1, h2⟩
    rw [Bool.and_eq_true] at h1
    have hne : kv.1 ≠ k := by
      intro he
      rw [he, hk] at h1
      simpa using h1.1
    cases kv
    simp only [objGet]
    rw [if_neg hne]
    exact ih h2

/-- Values found in such a `fields` list inherit the no-price-keys bound. -/
theorem objGet_noPrice_of_all (f : Nat) (k : String) :
    ∀ (fields : List (String × JVal)) (v : JVal),
      (fields.all fun kv => !(priceKeys.contains kv.1) && noPriceKeysF f kv.2) = true →
      objGet fields k = some v → noPriceKeysF f v = true := by
  intro fields
  induction fields with
  | nil => intro v _ hg; simp [objGet] at hg
  | cons kv rest ih =>
    intro v h hg
    rw [List.all_cons, Bool.and_eq_true] at h
    rcases h with ⟨h1, h2⟩
    rcases kv with ⟨k', w⟩
    simp only [objGet] at hg
    by_cases he : k' = k
    · rw [if_pos he] at hg
      have hw := Option.some_inj.mp hg
      subst hw
      rw [Bool.and_eq_true] at h1
      exact h1.2
    · rw [if_neg he] at hg
      exact ih v h2 hg

/-- With no price alias anywhere in a record, the nested three-alias chain
yields `None`. -/
theorem infoLtp3_null_of_all (f : Nat) (g : List (String × JVal))
    (h : (g.all fun kv => !(priceKeys.contains kv.1) && noPriceKeysF f kv.2) = true) :
    infoLtp3 g = .jnull := by
  have ha : objGet g "last_price" = none := objGet_none_of_all f _ (by decide) g h
  have hb : objGet g "ltp" = none := objGet_none_of_all f _ (by decide) g h
  have hc : objGet g "lastPrice" = none := objGet_none_of_all f _ (by decide) g h
  simp [infoLtp3, objGetJ, ha, hb, hc, pyOr, truthy]

/-- With no price alias anywhere, the top-level four-alias chain yields
`None`. -/
theorem topLtp_null_of_all (f : Nat) (g : List (String × JVal))
    (h : (g.all fun kv => !(priceKeys.contains kv.1) && noPriceKeysF f kv.2) = true) :
    topLtp g = .jnull := by
  have ha : objGet g "ltp" = none := objGet_none_of_all f _ (by decide) g h
  have hb : objGet g "last_price" = none := objGet_none_of_all f _ (by decide) g h
  have hc : objGet g "lastPrice" = none := objGet_none_of_all f _ (by decide) g h
  have hd : objGet g "price" = none := objGet_none_of_all f _ (by decide) g h
  simp [topLtp, objGetJ, ha, hb, hc, hd, pyOr, truthy]

/-- The inner scan finds nothing in buckets free of price aliases. -/
theorem scanInfos_none_of_noPrice (f : Nat) :
    ∀ infos : List (String × JVal),
      (infos.all fun kv => !(priceKeys.contains kv.1) && noPriceKeysF f kv.2) = true →
      scanInfos infos = none := by
  intro infos
  induction infos with
  | nil => intro _; rfl
  | cons kv rest ih =>
    intro h
    rw [List.all_cons, Bool.and_eq_true] at h
    rcases h with ⟨h1, h2⟩
    rcases kv with ⟨instid, info⟩
    rw [Bool.and_eq_true] at h1
    have hv : noPriceKeysF f info = true := h1.2
    cases info with
    | jobj g =>
      cases f with
      | zero => simp [noPriceKeysF] at hv
      | succ f' =>
        simp only [noPriceKeysF] at hv
        have hl : infoLtp3 g = .jnull := infoLtp3_null_of_all f' g hv
        simp [scanInfos, hl, isNull, ih h2]
    | jnull => simpa [scanInfos] using ih h2
    | jbool b => simpa [scanInfos] using ih h2
    | jnum q => simpa [scanInfos] using ih h2
    | jstr s => simpa [scanInfos] using ih h2
    | jarr l => simpa [scanInfos] using ih h2

/-- The bucket scan finds nothing in payloads free of price aliases. -/
theorem scanBuckets_none_of_noPrice (f : Nat) :
    ∀ pf : List (String × JVal),
      (pf.all fun kv => !(priceKeys.contains kv.1) && noPriceKeysF f kv.2) = true →
      scanBuckets pf = none := by
  intro pf
  induction pf with
  | nil => intro _; rfl
  | cons kv rest ih =>
    intro h
    rw [List.all_cons, Bool.and_eq_true] at h
    rcases h with ⟨h1, h2⟩
    rcases kv with ⟨seg, bucket⟩
    rw [Bool.and_eq_true] at h1
    have hv : noPriceKeysF f bucket = true := h1.2
    cases bucket with
    | jobj infos =>
      cases f with
      | zero => simp [noPriceKeysF] at hv
      | succ f' =>
        simp only [noPriceKeysF] at hv
        simp [scanBuckets, scanInfos_none_of_noPrice f' infos hv, ih h2]
    | jnull => simpa [scanBuckets] using ih h2
    | jbool b => simpa [scanBuckets] using ih h2
    | jnum q => simpa [scanBuckets] using ih h2
    | jstr s => simpa [scanBuckets] using ih h2
    | jarr l => simpa [scanBuckets] using ih h2

/-- A message object containing no price field at any depth extracts
nothing. -/
theorem extractTick_none_of_noPrice (fl : Nat) (fields : List (String × JVal))
    (h : noPriceKeysF fl (.jobj fields) = true) :
    extractTick (.jobj fields) = none := by
  cases fl with
  | zero => simp [noPriceKeysF] at h
  | succ f =>
    simp only [noPriceKeysF] at h
    have hnested : extractNested (.jobj fields) = none := by
      simp only [extractNested]
      cases hd : objGet fields "data" with
      | none => simp [hd, scanBuckets_none_of_noPrice f fields h]
      | some w =>
        have hw : noPriceKeysF f w = true := objGet_noPrice_of_all f "data" fields w h hd
        cases w with
        | jobj pf =>
          cases f with
          | zero => simp [noPriceKeysF] at hw
          | succ f' =>
            simp only [noPriceKeysF] at hw
            simp [hd, objGetJ, scanBuckets_none_of_noPrice f' pf hw]
        | jnull => simp [hd, objGetJ]
        | jbool b => simp [hd, objGetJ]
        | jnum q => simp [hd, objGetJ]
        | jstr s => simp [hd, objGetJ]
        | jarr l => simp [hd, objGetJ]
    simp [extractTick, hnested, topLtp_null_of_all f fields h, isNull]

/-- Claim C7: the handler is a no-op — store untouched, nothing sent, no
exception (the model is a total function) — on (a) any text frame the JSON
parser rejects, (b) any binary frame that is not valid UTF-8, and (c) any
text frame parsing to a JSON object containing no price field anywhere. -/
theorem ws_malformed_resilience (parse : String → Option JVal) (now : String)
    (store : Store) :
    (∀ s, parse s = none → on_message parse now store (.text s) = (store, [])) ∧
    on_message parse now store (.binary none) = (store, []) ∧
    (∀ s fields, parse s = some (.jobj fields) →
      noPriceKeys (.jobj fields) = true →
      on_message parse now store (.text s) = (store, [])) := by
  refine ⟨?_, rfl, ?_⟩
  · intro s hp
    simp [on_message, hp]
  · intro s fields hp hnp
    have hext : extractTick (.jobj fields) = none :=
      extractTick_none_of_noPrice _ fields hnp
    simp [on_message, hp, handleData, hext]

/-- Claim C7 witness: a rejected text frame, an undecodable binary frame,
and the parsed price-free object `{"foo": 1}` each leave a one-entry store
unchanged and send nothing. -/
theorem ws_malformed_resilience_witness :
    on_message (fun _ => none) "T" [("k", .jnum 2)] (.text "not json") =
      ([("k", .jnum 2)], []) ∧
    on_message (fun _ => none) "T" [("k", .jnum 2)] (.binary none) =
      ([("k", .jnum 2)], []) ∧
    on_message (fun _ => some (.jobj [("foo", .jnum 1)])) "T" [("k", .jnum 2)]
        (.text "x") = ([("k", .jnum 2)], []) :=
  ⟨(ws_malformed_resilience (fun _ => none) "T" [("k", .jnum 2)]).1 "not json" rfl,
   (ws_malformed_resilience (fun _ => none) "T" [("k", .jnum 2)]).2.1,
   (ws_malformed_resilience (fun _ => some (.jobj [("foo", .jnum 1)])) "T"
     [("k", .jnum 2)]).2.2 "x" [("foo", .jnum 1)] rfl rfl⟩
